import Mathlib

/-!
Verification development for the todo application's authentication and
session core: token codec (`src/server/src/utils/jwt.ts`, mirrored in
`src/unnamed/part_012`), cache store (`RedisService` in
`src/unnamed/part_004`), session registry
(`src/server/src/services/sessionService.ts`), role/permission model
(`src/server/src/utils/roles.ts`) and the authentication gate
(`src/server/src/middlewares/auth.ts`).

All definitions are shallow embeddings of the TypeScript source: stateful
Redis code becomes explicit state passing over an association-list store,
`Date.now()` and the generated uuid become explicit parameters, and the
`jsonwebtoken` library is modelled by tokens carrying their signing secret
and expiry, with verification checking the secret before the clock (as the
library checks the signature before `exp`).
-/

/-! ## Role/Permission model — `src/server/src/utils/roles.ts` -/

inductive UserRole where
  | user
  | moderator
  | admin
  | super_admin
  deriving DecidableEq, Repr, Fintype

inductive Permission where
  | read_own_profile
  | update_own_profile
  | create_todo
  | read_own_todos
  | update_own_todos
  | delete_own_todos
  | read_all_todos
  | delete_any_todo
  | moderate_content
  | read_all_users
  | update_user_roles
  | delete_users
  | manage_system_settings
  | manage_admins
  | system_maintenance
  | access_logs
  deriving DecidableEq, Repr, Fintype

open UserRole Permission

/-- `USER_PERMISSIONS` from roles.ts. -/
def USER_PERMISSIONS : List Permission :=
  [read_own_profile, update_own_profile, create_todo,
   read_own_todos, update_own_todos, delete_own_todos]

/-- `MODERATOR_PERMISSIONS = [...USER_PERMISSIONS, ...]` from roles.ts. -/
def MODERATOR_PERMISSIONS : List Permission :=
  USER_PERMISSIONS ++ [read_all_todos, delete_any_todo, moderate_content]

/-- `ADMIN_PERMISSIONS = [...MODERATOR_PERMISSIONS, ...]` from roles.ts. -/
def ADMIN_PERMISSIONS : List Permission :=
  MODERATOR_PERMISSIONS ++
    [read_all_users, update_user_roles, delete_users, manage_system_settings]

/-- `SUPER_ADMIN_PERMISSIONS = [...ADMIN_PERMISSIONS, ...]` from roles.ts. -/
def SUPER_ADMIN_PERMISSIONS : List Permission :=
  ADMIN_PERMISSIONS ++ [manage_admins, system_maintenance, access_logs]

/-- `ROLE_PERMISSIONS` lookup table from roles.ts. -/
def ROLE_PERMISSIONS : UserRole → List Permission
  | .user => USER_PERMISSIONS
  | .moderator => MODERATOR_PERMISSIONS
  | .admin => ADMIN_PERMISSIONS
  | .super_admin => SUPER_ADMIN_PERMISSIONS

/-- `ROLE_HIERARCHY` from roles.ts (higher number = more permissions). -/
def ROLE_HIERARCHY : UserRole → Nat
  | .user => 1
  | .moderator => 2
  | .admin => 3
  | .super_admin => 4

/-- `hasPermission(userRole, permission)` from roles.ts. -/
def hasPermission (userRole : UserRole) (permission : Permission) : Bool :=
  (ROLE_PERMISSIONS userRole).contains permission

/-- `hasRole(userRole, requiredRole)` from roles.ts. -/
def hasRole (userRole requiredRole : UserRole) : Bool :=
  ROLE_HIERARCHY requiredRole ≤ ROLE_HIERARCHY userRole

/-- `canAccessResource(userRole, requiredPermissions)` from roles.ts. -/
def canAccessResource (userRole : UserRole)
    (requiredPermissions : List Permission) : Bool :=
  requiredPermissions.all (fun p => hasPermission userRole p)

/-! ## Token codec — `src/server/src/utils/jwt.ts` (`src/unnamed/part_012`)

The `jsonwebtoken` library is modelled shallowly: a signed token carries its
claims, the secret it was signed with, and its expiry epoch (seconds).
`jwt.verify` checks the signature (here: secret equality) before the clock,
raising `JsonWebTokenError` on a bad signature and `TokenExpiredError` when
`clockTimestamp >= exp`; a string that is not a well-formed token at all
verifies to `JsonWebTokenError` as well. -/

/-- The claims payload used by the app: `{ userId: user._id }`. -/
structure Claims where
  userId : String
  deriving DecidableEq, Repr

/-- A structurally well-formed signed token. -/
structure Token where
  payload : Claims
  secret : String
  iat : Nat
  exp : Nat
  deriving DecidableEq, Repr

/-- A presented bearer credential: either a well-formed signed token or a
malformed string. -/
inductive TokenBlob where
  | signed (t : Token)
  | malformed
  deriving DecidableEq, Repr

/-- `jsonwebtoken` failure kinds: `TokenExpiredError` vs `JsonWebTokenError`. -/
inductive JwtError where
  | expired
  | invalid
  deriving DecidableEq, Repr

instance {ε α : Type} [DecidableEq ε] [DecidableEq α] :
    DecidableEq (Except ε α) := fun a b =>
  match a, b with
  | .error x, .error y =>
    if h : x = y then isTrue (h ▸ rfl)
    else isFalse (fun hc => h (by cases hc; rfl))
  | .ok x, .ok y =>
    if h : x = y then isTrue (h ▸ rfl)
    else isFalse (fun hc => h (by cases hc; rfl))
  | .error _, .ok _ => isFalse (fun hc => Except.noConfusion hc)
  | .ok _, .error _ => isFalse (fun hc => Except.noConfusion hc)

/-- `jwt.sign(payload, secret, { expiresIn })`: lifetime in seconds. -/
def jwtSign (payload : Claims) (secret : String) (now lifetime : Nat) : Token :=
  { payload := payload, secret := secret, iat := now, exp := now + lifetime }

/-- `jwt.verify(token, secret)` at clock `now`: signature first, then expiry. -/
def jwtVerify (blob : TokenBlob) (secret : String) (now : Nat) :
    Except JwtError Claims :=
  match blob with
  | .malformed => .error .invalid
  | .signed t =>
    if t.secret ≠ secret then .error .invalid
    else if t.exp ≤ now then .error .expired
    else .ok t.payload

/-- Process-wide configuration: `JWT_SECRET` / `JWT_REFRESH_SECRET`. -/
structure JwtConfig where
  accessSecret : String
  refreshSecret : String
  deriving DecidableEq, Repr

/-- `generateAccessToken(payload)`: `expiresIn: "15m"`. -/
def generateAccessToken (cfg : JwtConfig) (now : Nat) (payload : Claims) : Token :=
  jwtSign payload cfg.accessSecret now (15 * 60)

/-- `generateRefreshToken(payload)`: `expiresIn: "7d"`. -/
def generateRefreshToken (cfg : JwtConfig) (now : Nat) (payload : Claims) : Token :=
  jwtSign payload cfg.refreshSecret now (7 * 24 * 60 * 60)

/-- `verifyAccessToken(token)`. -/
def verifyAccessToken (cfg : JwtConfig) (now : Nat) (blob : TokenBlob) :
    Except JwtError Claims :=
  jwtVerify blob cfg.accessSecret now

/-- `verifyRefreshToken(token)`. -/
def verifyRefreshToken (cfg : JwtConfig) (now : Nat) (blob : TokenBlob) :
    Except JwtError Claims :=
  jwtVerify blob cfg.refreshSecret now

/-! ## Cookie helpers and response effects — `src/unnamed/part_012`

The Express `Response` mutations the gate performs are modelled as an
explicit effects record: cookies set by `setAuthCookies`, the `X-New-*`
headers, and whether `clearAuthCookies` ran. -/

/-- Observable mutations of the outgoing response. -/
structure ResponseEffects where
  cookieAccessToken : Option Token := none
  cookieRefreshToken : Option Token := none
  headerNewAccessToken : Option Token := none
  headerNewRefreshToken : Option Token := none
  clearedCookies : Bool := false
  deriving DecidableEq, Repr

/-- `setAuthCookies(res, accessToken, refreshToken)`. -/
def setAuthCookies (eff : ResponseEffects) (accessToken refreshToken : Token) :
    ResponseEffects :=
  { eff with cookieAccessToken := some accessToken,
             cookieRefreshToken := some refreshToken }

/-- `clearAuthCookies(res)`. -/
def clearAuthCookies (eff : ResponseEffects) : ResponseEffects :=
  { eff with cookieAccessToken := none, cookieRefreshToken := none,
             clearedCookies := true }

/-- `generateTokensWithCookies(res, payload)`: mints both tokens and sets
both cookies, returning the pair. -/
def generateTokensWithCookies (cfg : JwtConfig) (now : Nat) (payload : Claims)
    (eff : ResponseEffects) : (Token × Token) × ResponseEffects :=
  let accessToken := generateAccessToken cfg now payload
  let refreshToken := generateRefreshToken cfg now payload
  ((accessToken, refreshToken), setAuthCookies eff accessToken refreshToken)

/-! ## Authentication gate — `src/server/src/middlewares/auth.ts`

`User.findById` is the external user-store collaborator: modelled as lookup
in a list of existing principal ids. `Date.now()`-derived clock is `now`. -/

/-- The parts of an incoming request the gate reads. -/
structure Request where
  cookieAccessToken : Option TokenBlob := none
  headerAuthorization : Option TokenBlob := none
  cookieRefreshToken : Option TokenBlob := none
  bodyRefreshToken : Option TokenBlob := none
  deriving DecidableEq, Repr

/-- `User.findById(id)`: the principal's id when it exists, else null. -/
def findById (users : List String) (id : String) : Option String :=
  if users.contains id then some id else none

/-- Return value of `attemptTokenRefresh`. -/
inductive RefreshResult where
  | ok (userId : String) (accessToken refreshToken : Token)
  | failed
  deriving DecidableEq, Repr

/-- `let candidateRefreshToken = req.cookies?.refreshToken` falling back to
`req.body.refreshToken`. -/
def extractRefreshToken (req : Request) : Option TokenBlob :=
  match req.cookieRefreshToken with
  | some t => some t
  | none => req.bodyRefreshToken

/-- `let accessToken = req.cookies?.accessToken` falling back to the
`Authorization` bearer header. -/
def extractAccessToken (req : Request) : Option TokenBlob :=
  match req.cookieAccessToken with
  | some t => some t
  | none => req.headerAuthorization

/-- `attemptTokenRefresh(req, res)`: cookie-first refresh-token extraction,
verification, principal existence check, then `generateTokensWithCookies`
plus the two `X-New-*` headers. A verification throw or a missing user lands
in the catch / failure return. -/
def attemptTokenRefresh (cfg : JwtConfig) (users : List String) (now : Nat)
    (req : Request) (eff : ResponseEffects) : RefreshResult × ResponseEffects :=
  match extractRefreshToken req with
  | none => (.failed, eff)
  | some blob =>
    match verifyRefreshToken cfg now blob with
    | .error _ => (.failed, eff)
    | .ok decoded =>
      match findById users decoded.userId with
      | none => (.failed, eff)
      | some uid =>
        let payload : Claims := { userId := uid }
        let ((accessToken, refreshToken), eff1) :=
          generateTokensWithCookies cfg now payload eff
        let eff2 := { eff1 with headerNewAccessToken := some accessToken,
                                headerNewRefreshToken := some refreshToken }
        (.ok uid accessToken refreshToken, eff2)

/-- Outcome of the `authenticate` middleware. -/
inductive AuthResult where
  | authenticated (userId : String) (eff : ResponseEffects)
  | failed (status : Nat) (code : String) (eff : ResponseEffects)
  deriving DecidableEq, Repr

/-- `authenticate(req, res, next)`: cookie-first access-token extraction,
verify; on `TokenExpiredError` attempt a refresh, on any other verification
error answer 401 `INVALID_TOKEN`; with no token answer 401 `NO_TOKEN`. -/
def authenticate (cfg : JwtConfig) (users : List String) (now : Nat)
    (req : Request) : AuthResult :=
  match extractAccessToken req with
  | none => .failed 401 "NO_TOKEN" {}
  | some blob =>
    match verifyAccessToken cfg now blob with
    | .ok decoded => .authenticated decoded.userId {}
    | .error .expired =>
      match attemptTokenRefresh cfg users now req {} with
      | (.ok uid _ _, eff) => .authenticated uid eff
      | (.failed, eff) => .failed 401 "SESSION_EXPIRED" eff
    | .error .invalid => .failed 401 "INVALID_TOKEN" {}

/-! ## Cache store — `RedisService` in `src/unnamed/part_004`

The Redis backend is an association-list keyspace (latest write first) whose
entries carry an optional TTL, plus an availability flag: a raw client call
raises exactly when the backend is unavailable (or `INCR` hits a
non-integer value), and the service layer catches those errors as the
source does. JSON serialization is transparent (structured value in,
structured value out), so it is the identity on `Value` here. -/

/-- A session record (`SessionData` in sessionService.ts). -/
structure SessionData where
  userId : String
  email : String
  role : String
  loginTime : Nat
  lastActivity : Nat
  ipAddress : Option String := none
  userAgent : Option String := none
  deriving DecidableEq, Repr

/-- A structured value stored in the cache: a session record, a session-id
list, or an integer counter. -/
inductive Value where
  | sess (d : SessionData)
  | ids (l : List String)
  | num (n : Nat)
  deriving DecidableEq, Repr

/-- The backend keyspace: key, value, optional TTL in seconds. -/
abbrev Store := List (String × Value × Option Nat)

/-- Find a key's entry (value and TTL): first match wins. -/
def storeFind : Store → String → Option (Value × Option Nat)
  | [], _ => none
  | e :: rest, k => if e.1 = k then some e.2 else storeFind rest k

/-- Remove a key. -/
def storeErase (st : Store) (k : String) : Store :=
  st.filter (fun e => e.1 != k)

/-- Write a key (replacing any previous entry). -/
def storeInsert (st : Store) (k : String) (v : Value) (ttl : Option Nat) : Store :=
  (k, v, ttl) :: storeErase st k

/-- Backend state: availability plus keyspace. -/
structure RedisState where
  up : Bool
  store : Store
  deriving DecidableEq, Repr

/-- Raw `client.set` / `client.setEx`: raises when the backend is down. -/
def clientSet (s : RedisState) (k : String) (v : Value) (ttl : Option Nat) :
    Except Unit RedisState :=
  if s.up then .ok { s with store := storeInsert s.store k v ttl }
  else .error ()

/-- Raw `client.get`: null for a missing key; raises when down. -/
def clientGet (s : RedisState) (k : String) : Except Unit (Option Value) :=
  if s.up then .ok ((storeFind s.store k).map (fun e => e.1))
  else .error ()

/-- Raw `client.del`: raises when down. -/
def clientDel (s : RedisState) (k : String) : Except Unit RedisState :=
  if s.up then .ok { s with store := storeErase s.store k }
  else .error ()

/-- Raw `client.exists`: 1 when present; raises when down. -/
def clientExists (s : RedisState) (k : String) : Except Unit Nat :=
  if s.up then .ok (if (storeFind s.store k).isSome then 1 else 0)
  else .error ()

/-- Raw `client.incr`: create-at-1 or bump an integer value; raises when
down or on a non-integer value (Redis `WRONGTYPE`). -/
def clientIncr (s : RedisState) (k : String) : Except Unit (Nat × RedisState) :=
  if s.up then
    match storeFind s.store k with
    | none => .ok (1, { s with store := storeInsert s.store k (.num 1) none })
    | some (.num n, ttl) =>
      .ok (n + 1, { s with store := storeInsert s.store k (.num (n + 1)) ttl })
    | some _ => .error ()
  else .error ()

/-- Raw `client.expire`: set a TTL on an existing key; raises when down. -/
def clientExpire (s : RedisState) (k : String) (ttl : Nat) :
    Except Unit RedisState :=
  if s.up then
    match storeFind s.store k with
    | some (v, _) => .ok { s with store := storeInsert s.store k v (some ttl) }
    | none => .ok s
  else .error ()

namespace RedisService

/-- `RedisService.set(key, value, expireInSeconds?)`: true on success, false
(graceful degradation) when the backend call raised. -/
def set (s : RedisState) (k : String) (v : Value) (ttl : Option Nat) :
    Bool × RedisState :=
  match clientSet s k v ttl with
  | .ok s1 => (true, s1)
  | .error _ => (false, s)

/-- `RedisService.get(key)`: the parsed value, null for a missing key, and
null (graceful degradation) when the backend call raised. -/
def get (s : RedisState) (k : String) : Option Value :=
  match clientGet s k with
  | .ok v => v
  | .error _ => none

/-- `RedisService.del(key)`: true on success, false when the call raised. -/
def del (s : RedisState) (k : String) : Bool × RedisState :=
  match clientDel s k with
  | .ok s1 => (true, s1)
  | .error _ => (false, s)

/-- `RedisService.exists(key)` (`exists` is reserved in Lean): true iff the
backend reported 1; false when the call raised. -/
def existsKey (s : RedisState) (k : String) : Bool :=
  match clientExists s k with
  | .ok r => r == 1
  | .error _ => false

/-- `RedisService.increment(key, expireInSeconds?)`: INCR, then EXPIRE on
first count; a backend error is rethrown to the caller, never swallowed. -/
def increment (s : RedisState) (k : String) (ttl : Option Nat) :
    Except Unit (Nat × RedisState) :=
  match clientIncr s k with
  | .error e => .error e
  | .ok (count, s1) =>
    match ttl with
    | some t =>
      if count = 1 then
        match clientExpire s1 k t with
        | .ok s2 => .ok (count, s2)
        | .error e => .error e
      else .ok (count, s1)
    | none => .ok (count, s1)

end RedisService

/-! ## Session registry — `src/server/src/services/sessionService.ts`

`uuidv4()` and `Date.now()` are nondeterministic, so the generated
`sessionId` and the clock `now` (epoch milliseconds) are explicit
parameters. Session keys (`session:` prefix) and user-session-list keys
(`user_sessions:` prefix) are disjoint string families, so a session key
only ever holds a `.sess` value and a list key only a `.ids` value; the
wildcard branches below cover the vacuously unreachable mismatches. -/

/-- `Omit<SessionData, 'loginTime' | 'lastActivity'>`: what the caller of
`createSession` supplies. -/
structure SessionInput where
  userId : String
  email : String
  role : String
  ipAddress : Option String := none
  userAgent : Option String := none
  deriving DecidableEq, Repr

/-- `Partial<SessionData>`: the update object passed to `updateSession`;
`none` marks a field that is not among the supplied fields. -/
structure SessionUpdate where
  userId : Option String := none
  email : Option String := none
  role : Option String := none
  loginTime : Option Nat := none
  lastActivity : Option Nat := none
  ipAddress : Option (Option String) := none
  userAgent : Option (Option String) := none
  deriving DecidableEq, Repr

/-- The object spread `{ ...existingData, ...updates }`. -/
def mergeUpdates (d : SessionData) (u : SessionUpdate) : SessionData :=
  { userId := u.userId.getD d.userId,
    email := u.email.getD d.email,
    role := u.role.getD d.role,
    loginTime := u.loginTime.getD d.loginTime,
    lastActivity := u.lastActivity.getD d.lastActivity,
    ipAddress := u.ipAddress.getD d.ipAddress,
    userAgent := u.userAgent.getD d.userAgent }

namespace SessionService

/-- `SESSION_TTL = 7 * 24 * 60 * 60` (7 days in seconds). -/
def SESSION_TTL : Nat := 7 * 24 * 60 * 60

/-- `getSessionKey(sessionId)`. -/
def getSessionKey (sessionId : String) : String :=
  "session:" ++ sessionId

/-- `getUserSessionsKey(userId)`. -/
def getUserSessionsKey (userId : String) : String :=
  "user_sessions:" ++ userId

/-- `createSession(sessionData)`: writes the full record under the session
key and writes `[sessionId]` under the user's session-list key (both with
the 7-day TTL), returning the generated id. -/
def createSession (s : RedisState) (sessionId : String) (now : Nat)
    (sessionData : SessionInput) : String × RedisState :=
  let sessionKey := getSessionKey sessionId
  let userSessionsKey := getUserSessionsKey sessionData.userId
  let fullSessionData : SessionData :=
    { userId := sessionData.userId, email := sessionData.email,
      role := sessionData.role, loginTime := now, lastActivity := now,
      ipAddress := sessionData.ipAddress, userAgent := sessionData.userAgent }
  let (_, s1) := RedisService.set s sessionKey (.sess fullSessionData)
    (some SESSION_TTL)
  let (_, s2) := RedisService.set s1 userSessionsKey (.ids [sessionId])
    (some SESSION_TTL)
  (sessionId, s2)

/-- `getSession(sessionId)`: on a hit, bumps `lastActivity` to now and
rewrites the record with a fresh TTL (sliding expiration); null on miss. -/
def getSession (s : RedisState) (sessionId : String) (now : Nat) :
    Option SessionData × RedisState :=
  let sessionKey := getSessionKey sessionId
  match RedisService.get s sessionKey with
  | some (.sess d) =>
    let d1 := { d with lastActivity := now }
    let (_, s1) := RedisService.set s sessionKey (.sess d1) (some SESSION_TTL)
    (some d1, s1)
  | _ => (none, s)

/-- `updateSession(sessionId, updates)`: merge the updates over the existing
record, overwrite `lastActivity` with now, and write back; no-op when the
record is absent. -/
def updateSession (s : RedisState) (sessionId : String) (updates : SessionUpdate)
    (now : Nat) : RedisState :=
  let sessionKey := getSessionKey sessionId
  match RedisService.get s sessionKey with
  | some (.sess existingData) =>
    let updatedData := { mergeUpdates existingData updates with lastActivity := now }
    (RedisService.set s sessionKey (.sess updatedData) (some SESSION_TTL)).2
  | _ => s

/-- `deleteSession(sessionId)`: prune the id from the owning user's list
(removing the list key when the pruned list is empty), then delete the
record key. -/
def deleteSession (s : RedisState) (sessionId : String) : RedisState :=
  let sessionKey := getSessionKey sessionId
  let s1 :=
    match RedisService.get s sessionKey with
    | some (.sess sessionData) =>
      let userSessionsKey := getUserSessionsKey sessionData.userId
      let userSessions :=
        match RedisService.get s userSessionsKey with
        | some (.ids l) => l
        | _ => []
      let updatedSessions := userSessions.filter (fun id => id != sessionId)
      if updatedSessions.length > 0 then
        (RedisService.set s userSessionsKey (.ids updatedSessions)
          (some SESSION_TTL)).2
      else
        (RedisService.del s userSessionsKey).2
    | _ => s
  (RedisService.del s1 sessionKey).2

/-- The `for (const sessionId of sessionIds)` loop of `getUserSessions`,
threading the store through each `getSession` call. -/
def getUserSessionsLoop (now : Nat) :
    List String → RedisState → List SessionData × RedisState
  | [], s => ([], s)
  | sessionId :: rest, s =>
    let (d, s1) := getSession s sessionId now
    let (ds, s2) := getUserSessionsLoop now rest s1
    match d with
    | some sessionData => (sessionData :: ds, s2)
    | none => (ds, s2)

/-- `getUserSessions(userId)` (= the spec's `listSessions`): resolve each id
in the user's list through `getSession`, dropping ids that no longer
resolve. -/
def getUserSessions (s : RedisState) (userId : String) (now : Nat) :
    List SessionData × RedisState :=
  let sessionIds :=
    match RedisService.get s (getUserSessionsKey userId) with
    | some (.ids l) => l
    | _ => []
  getUserSessionsLoop now sessionIds s

/-- `logoutAllDevices(userId)` (= the spec's `revokeAllSessions`): delete
every session key in the user's list, then delete the list key. -/
def logoutAllDevices (s : RedisState) (userId : String) : RedisState :=
  let sessionIds :=
    match RedisService.get s (getUserSessionsKey userId) with
    | some (.ids l) => l
    | _ => []
  let s1 := sessionIds.foldl
    (fun acc sessionId => (RedisService.del acc (getSessionKey sessionId)).2) s
  (RedisService.del s1 (getUserSessionsKey userId)).2

end SessionService

/-! ## Shared lemmas about the store and the service layer -/

theorem storeFind_erase_same (st : Store) (k : String) :
    storeFind (storeErase st k) k = none := by
  induction st with
  | nil => rfl
  | cons e rest ih =>
    by_cases he : e.1 = k
    · simpa [storeErase, List.filter_cons, he] using ih
    · simpa [storeErase, List.filter_cons, he, storeFind] using ih

theorem storeFind_erase_other (st : Store) {k k' : String} (h : k' ≠ k) :
    storeFind (storeErase st k) k' = storeFind st k' := by
  have hkk : ¬ k = k' := fun hk => h hk.symm
  induction st with
  | nil => rfl
  | cons e rest ih =>
    show storeFind ((e :: rest).filter (fun e => e.1 != k)) k' = _
    rw [List.filter_cons]
    by_cases he : e.1 = k
    · have hb : (e.1 != k) = false := by simp [he]
      rw [hb]
      simp only [Bool.false_eq_true, if_false]
      have hne : ¬ e.1 = k' := by rw [he]; exact hkk
      rw [show storeFind (e :: rest) k' = storeFind rest k' from by
        simp [storeFind, hne]]
      exact ih
    · have hb : (e.1 != k) = true := by simp [he]
      rw [hb]
      simp only [if_true]
      simp only [storeFind]
      rw [show storeFind (List.filter (fun e => e.1 != k) rest) k' =
            storeFind rest k' from ih]

theorem storeFind_insert_same (st : Store) (k : String) (v : Value)
    (ttl : Option Nat) : storeFind (storeInsert st k v ttl) k = some (v, ttl) := by
  simp [storeInsert, storeFind]

theorem storeFind_insert_other (st : Store) {k k' : String} (v : Value)
    (ttl : Option Nat) (h : k' ≠ k) :
    storeFind (storeInsert st k v ttl) k' = storeFind st k' := by
  have : k ≠ k' := fun hk => h hk.symm
  simp [storeInsert, storeFind, this, storeFind_erase_other st h]

theorem RedisService.up_set (s : RedisState) (k : String) (v : Value)
    (ttl : Option Nat) : ((RedisService.set s k v ttl).2).up = s.up := by
  by_cases h : s.up <;> simp [RedisService.set, clientSet, h]

theorem RedisService.up_del (s : RedisState) (k : String) :
    ((RedisService.del s k).2).up = s.up := by
  by_cases h : s.up <;> simp [RedisService.del, clientDel, h]

theorem RedisService.get_eq (s : RedisState) (k : String) (hup : s.up = true) :
    RedisService.get s k = (storeFind s.store k).map (fun e => e.1) := by
  simp [RedisService.get, clientGet, hup]

theorem RedisService.get_down (s : RedisState) (k : String) (hup : s.up = false) :
    RedisService.get s k = none := by
  simp [RedisService.get, clientGet, hup]

theorem RedisService.get_some_up {s : RedisState} {k : String} {v : Value}
    (h : RedisService.get s k = some v) : s.up = true := by
  by_cases hup : s.up
  · exact hup
  · rw [RedisService.get_down s k (by simpa using hup)] at h
    exact absurd h (by simp)

theorem RedisService.get_set_same (s : RedisState) (k : String) (v : Value)
    (ttl : Option Nat) (hup : s.up = true) :
    RedisService.get (RedisService.set s k v ttl).2 k = some v := by
  simp [RedisService.set, clientSet, hup, RedisService.get, clientGet,
    storeFind_insert_same]

theorem RedisService.get_set_other (s : RedisState) {k k' : String} (v : Value)
    (ttl : Option Nat) (h : k' ≠ k) :
    RedisService.get (RedisService.set s k v ttl).2 k' = RedisService.get s k' := by
  by_cases hup : s.up
  · simp [RedisService.set, clientSet, hup, RedisService.get, clientGet,
      storeFind_insert_other s.store v ttl h]
  · simp [RedisService.set, clientSet, hup]

theorem RedisService.get_del_same (s : RedisState) (k : String) :
    RedisService.get (RedisService.del s k).2 k = none := by
  by_cases hup : s.up
  · simp [RedisService.del, clientDel, hup, RedisService.get, clientGet,
      storeFind_erase_same]
  · simp [RedisService.del, clientDel, hup, RedisService.get, clientGet]

theorem RedisService.get_del_other (s : RedisState) {k k' : String}
    (h : k' ≠ k) :
    RedisService.get (RedisService.del s k).2 k' = RedisService.get s k' := by
  by_cases hup : s.up
  · simp [RedisService.del, clientDel, hup, RedisService.get, clientGet,
      storeFind_erase_other s.store h]
  · simp [RedisService.del, clientDel, hup]

theorem SessionService.sessionKey_ne_userSessionsKey (a b : String) :
    SessionService.getSessionKey a ≠ SessionService.getUserSessionsKey b := by
  intro h
  have h2 := congrArg String.data h
  simp [SessionService.getSessionKey, SessionService.getUserSessionsKey,
    String.data_append] at h2

/-! ## Claim theorems -/

/-- C4: for all roles `r1, r2` with `rank(r1) <= rank(r2)`, every permission
in the permission set of `r1` is also in the permission set of `r2` — the
permission sets grow monotonically up the role hierarchy. -/
theorem C4_role_permission_monotonic (r1 r2 : UserRole) (p : Permission)
    (hrank : ROLE_HIERARCHY r1 ≤ ROLE_HIERARCHY r2)
    (hp : hasPermission r1 p = true) :
    hasPermission r2 p = true := by
  have h : ∀ a b : UserRole, ∀ q : Permission,
      ROLE_HIERARCHY a ≤ ROLE_HIERARCHY b →
      hasPermission a q = true → hasPermission b q = true := by decide
  exact h r1 r2 p hrank hp

/-- Witness for C4 at `(user, super_admin, create_todo)`. -/
theorem C4_role_permission_monotonic_witness :
    ROLE_HIERARCHY UserRole.user ≤ ROLE_HIERARCHY UserRole.super_admin ∧
    hasPermission UserRole.user Permission.create_todo = true ∧
    hasPermission UserRole.super_admin Permission.create_todo = true :=
  ⟨by decide, by decide,
   C4_role_permission_monotonic UserRole.user UserRole.super_admin
     Permission.create_todo (by decide) (by decide)⟩

/-- C7: verifying a freshly minted access token before its expiry with the
access secret returns the original claims (in particular the same subject),
and likewise for refresh tokens with the refresh secret. -/
theorem C7_token_roundtrip (cfg : JwtConfig) (claims : Claims) (t tv : Nat)
    (hA : tv < t + 15 * 60) (hR : tv < t + 7 * 24 * 60 * 60) :
    verifyAccessToken cfg tv (.signed (generateAccessToken cfg t claims))
      = .ok claims ∧
    verifyRefreshToken cfg tv (.signed (generateRefreshToken cfg t claims))
      = .ok claims := by
  constructor
  · simp only [verifyAccessToken, generateAccessToken, jwtVerify, jwtSign]
    simp
    omega
  · clear hA
    simp only [verifyRefreshToken, generateRefreshToken, jwtVerify, jwtSign]
    simp
    omega

/-- Witness for C7 at concrete secrets, subject `u1`, mint time 0, clock 0. -/
theorem C7_token_roundtrip_witness :
    (0 : Nat) < 0 + 15 * 60 ∧ (0 : Nat) < 0 + 7 * 24 * 60 * 60 ∧
    (verifyAccessToken ⟨"a", "r"⟩ 0
        (.signed (generateAccessToken ⟨"a", "r"⟩ 0 ⟨"u1"⟩)) = .ok ⟨"u1"⟩ ∧
     verifyRefreshToken ⟨"a", "r"⟩ 0
        (.signed (generateRefreshToken ⟨"a", "r"⟩ 0 ⟨"u1"⟩)) = .ok ⟨"u1"⟩) :=
  ⟨by decide, by decide,
   C7_token_roundtrip ⟨"a", "r"⟩ ⟨"u1"⟩ 0 0 (by decide) (by decide)⟩

/-- C6: with distinct access/refresh secrets, a token minted by
`generateRefreshToken` presented as the access token fails access-token
verification with a non-expiry error, and the gate rejects the request with
`INVALID_TOKEN` rather than authenticating it. -/
theorem C6_refresh_token_never_bearer (cfg : JwtConfig) (users : List String)
    (now mintTime : Nat) (claims : Claims) (req : Request)
    (hsec : cfg.accessSecret ≠ cfg.refreshSecret)
    (hex : extractAccessToken req =
      some (.signed (generateRefreshToken cfg mintTime claims))) :
    verifyAccessToken cfg now
        (.signed (generateRefreshToken cfg mintTime claims))
      = .error .invalid ∧
    authenticate cfg users now req = .failed 401 "INVALID_TOKEN" {} := by
  have hv : verifyAccessToken cfg now
      (.signed (generateRefreshToken cfg mintTime claims))
        = .error .invalid := by
    simp [verifyAccessToken, generateRefreshToken, jwtVerify, jwtSign,
      Ne.symm hsec]
  exact ⟨hv, by simp [authenticate, hex, hv]⟩

/-- Witness for C6 with secrets `"a" ≠ "r"` and the refresh token presented
in the access-token cookie. -/
theorem C6_refresh_token_never_bearer_witness :
    ("a" : String) ≠ "r" ∧
    extractAccessToken
        { cookieAccessToken :=
            some (.signed (generateRefreshToken ⟨"a", "r"⟩ 0 ⟨"u1"⟩)) }
      = some (.signed (generateRefreshToken ⟨"a", "r"⟩ 0 ⟨"u1"⟩)) ∧
    (verifyAccessToken ⟨"a", "r"⟩ 5
        (.signed (generateRefreshToken ⟨"a", "r"⟩ 0 ⟨"u1"⟩))
      = .error .invalid ∧
     authenticate ⟨"a", "r"⟩ [] 5
        { cookieAccessToken :=
            some (.signed (generateRefreshToken ⟨"a", "r"⟩ 0 ⟨"u1"⟩)) }
      = .failed 401 "INVALID_TOKEN" {}) :=
  ⟨by decide, rfl,
   C6_refresh_token_never_bearer ⟨"a", "r"⟩ [] 5 0 ⟨"u1"⟩
     { cookieAccessToken :=
         some (.signed (generateRefreshToken ⟨"a", "r"⟩ 0 ⟨"u1"⟩)) }
     (by decide) rfl⟩

/-- C2: the gate's taxonomy — no token anywhere gives 401 `NO_TOKEN`; a
token failing verification for a non-expiry reason gives 401 `INVALID_TOKEN`
with no refresh attempted (no response mutation); an expired token hands the
request to the refresh attempt, whose outcome (never the expiry itself)
determines the response; a valid token attaches the decoded principal id. -/
theorem C2_gate_taxonomy (cfg : JwtConfig) (users : List String) (now : Nat)
    (req : Request) :
    (extractAccessToken req = none →
      authenticate cfg users now req = .failed 401 "NO_TOKEN" {}) ∧
    (∀ blob, extractAccessToken req = some blob →
      verifyAccessToken cfg now blob = .error .invalid →
      authenticate cfg users now req = .failed 401 "INVALID_TOKEN" {}) ∧
    (∀ blob claims, extractAccessToken req = some blob →
      verifyAccessToken cfg now blob = .ok claims →
      authenticate cfg users now req = .authenticated claims.userId {}) ∧
    (∀ blob, extractAccessToken req = some blob →
      verifyAccessToken cfg now blob = .error .expired →
      ((attemptTokenRefresh cfg users now req {}).1 = .failed →
        authenticate cfg users now req =
          .failed 401 "SESSION_EXPIRED"
            (attemptTokenRefresh cfg users now req {}).2) ∧
      (∀ uid a r, (attemptTokenRefresh cfg users now req {}).1 = .ok uid a r →
        authenticate cfg users now req =
          .authenticated uid (attemptTokenRefresh cfg users now req {}).2)) := by
  refine ⟨?_, ?_, ?_, ?_⟩
  · intro h
    simp [authenticate, h]
  · intro blob hb hv
    simp [authenticate, hb, hv]
  · intro blob claims hb hv
    simp [authenticate, hb, hv]
  · intro blob hb hv
    rcases hAR : attemptTokenRefresh cfg users now req {} with ⟨r, eff⟩
    constructor
    · intro hr
      have hr2 : r = RefreshResult.failed := hr
      subst hr2
      simp [authenticate, hb, hv, hAR]
    · intro uid a rt hok
      have hok2 : r = RefreshResult.ok uid a rt := hok
      subst hok2
      simp [authenticate, hb, hv, hAR]

/-- Witness for C2: all four taxonomy branches at concrete requests — an
empty request, a tampered cookie token, a valid cookie token, and an expired
cookie token with no refresh token. -/
theorem C2_gate_taxonomy_witness :
    authenticate ⟨"a", "r"⟩ [] 0 {} = .failed 401 "NO_TOKEN" {} ∧
    authenticate ⟨"a", "r"⟩ [] 0
        { cookieAccessToken := some (.signed ⟨⟨"u1"⟩, "evil", 0, 900⟩) }
      = .failed 401 "INVALID_TOKEN" {} ∧
    authenticate ⟨"a", "r"⟩ [] 0
        { cookieAccessToken := some (.signed ⟨⟨"u1"⟩, "a", 0, 900⟩) }
      = .authenticated "u1" {} ∧
    authenticate ⟨"a", "r"⟩ [] 1000
        { cookieAccessToken := some (.signed ⟨⟨"u1"⟩, "a", 0, 900⟩) }
      = .failed 401 "SESSION_EXPIRED"
          (attemptTokenRefresh ⟨"a", "r"⟩ [] 1000
            { cookieAccessToken := some (.signed ⟨⟨"u1"⟩, "a", 0, 900⟩) } {}).2 :=
  ⟨(C2_gate_taxonomy ⟨"a", "r"⟩ [] 0 {}).1 rfl,
   (C2_gate_taxonomy ⟨"a", "r"⟩ [] 0
      { cookieAccessToken := some (.signed ⟨⟨"u1"⟩, "evil", 0, 900⟩) }).2.1
     _ rfl (by decide),
   (C2_gate_taxonomy ⟨"a", "r"⟩ [] 0
      { cookieAccessToken := some (.signed ⟨⟨"u1"⟩, "a", 0, 900⟩) }).2.2.1
     _ ⟨"u1"⟩ rfl (by decide),
   ((C2_gate_taxonomy ⟨"a", "r"⟩ [] 1000
      { cookieAccessToken := some (.signed ⟨⟨"u1"⟩, "a", 0, 900⟩) }).2.2.2
     _ rfl (by decide)).1 (by decide)⟩

/-- C3: an expired access token together with an extracted refresh token
that verifies and whose subject still exists makes the gate succeed with the
correct principal, and the response sets the new access and refresh tokens
both as cookies and as the `X-New-Access-Token` / `X-New-Refresh-Token`
headers — all four together. -/
theorem C3_refresh_transparency (cfg : JwtConfig) (users : List String)
    (now : Nat) (req : Request) (blob rblob : TokenBlob) (claims : Claims)
    (hb : extractAccessToken req = some blob)
    (hexp : verifyAccessToken cfg now blob = .error .expired)
    (hrt : extractRefreshToken req = some rblob)
    (hrv : verifyRefreshToken cfg now rblob = .ok claims)
    (hu : users.contains claims.userId = true) :
    authenticate cfg users now req =
      .authenticated claims.userId
        { cookieAccessToken := some (generateAccessToken cfg now ⟨claims.userId⟩),
          cookieRefreshToken := some (generateRefreshToken cfg now ⟨claims.userId⟩),
          headerNewAccessToken := some (generateAccessToken cfg now ⟨claims.userId⟩),
          headerNewRefreshToken := some (generateRefreshToken cfg now ⟨claims.userId⟩),
          clearedCookies := false } := by
  have hAR : attemptTokenRefresh cfg users now req {} =
      (.ok claims.userId (generateAccessToken cfg now ⟨claims.userId⟩)
         (generateRefreshToken cfg now ⟨claims.userId⟩),
       { cookieAccessToken := some (generateAccessToken cfg now ⟨claims.userId⟩),
         cookieRefreshToken := some (generateRefreshToken cfg now ⟨claims.userId⟩),
         headerNewAccessToken := some (generateAccessToken cfg now ⟨claims.userId⟩),
         headerNewRefreshToken := some (generateRefreshToken cfg now ⟨claims.userId⟩),
         clearedCookies := false }) := by
    have hm : claims.userId ∈ users := by simpa using hu
    simp [attemptTokenRefresh, hrt, hrv, findById, hm,
      generateTokensWithCookies, setAuthCookies]
  simp [authenticate, hb, hexp, hAR]

/-- Witness for C3: expired access cookie (expired at clock 1000), valid
refresh cookie for subject `u1`, user store containing `u1`. -/
theorem C3_refresh_transparency_witness :
    authenticate ⟨"a", "r"⟩ ["u1"] 1000
        { cookieAccessToken := some (.signed ⟨⟨"u1"⟩, "a", 0, 900⟩),
          cookieRefreshToken := some (.signed ⟨⟨"u1"⟩, "r", 0, 604800⟩) }
      = .authenticated "u1"
          { cookieAccessToken := some (generateAccessToken ⟨"a", "r"⟩ 1000 ⟨"u1"⟩),
            cookieRefreshToken := some (generateRefreshToken ⟨"a", "r"⟩ 1000 ⟨"u1"⟩),
            headerNewAccessToken := some (generateAccessToken ⟨"a", "r"⟩ 1000 ⟨"u1"⟩),
            headerNewRefreshToken := some (generateRefreshToken ⟨"a", "r"⟩ 1000 ⟨"u1"⟩),
            clearedCookies := false } :=
  C3_refresh_transparency ⟨"a", "r"⟩ ["u1"] 1000
    { cookieAccessToken := some (.signed ⟨⟨"u1"⟩, "a", 0, 900⟩),
      cookieRefreshToken := some (.signed ⟨⟨"u1"⟩, "r", 0, 604800⟩) }
    (.signed ⟨⟨"u1"⟩, "a", 0, 900⟩) (.signed ⟨⟨"u1"⟩, "r", 0, 604800⟩) ⟨"u1"⟩
    rfl (by decide) rfl (by decide) (by decide)

theorem attemptTokenRefresh_failed_eff (cfg : JwtConfig) (users : List String)
    (now : Nat) (req : Request) (eff : ResponseEffects)
    (h : (attemptTokenRefresh cfg users now req eff).1 = .failed) :
    (attemptTokenRefresh cfg users now req eff).2 = eff := by
  rcases hr : extractRefreshToken req with _ | rb
  · simp [attemptTokenRefresh, hr]
  · rcases hv : verifyRefreshToken cfg now rb with e | c
    · simp [attemptTokenRefresh, hr, hv]
    · rcases hf : findById users c.userId with _ | uid
      · simp [attemptTokenRefresh, hr, hv, hf]
      · exfalso
        simp [attemptTokenRefresh, hr, hv, hf, generateTokensWithCookies] at h

/-- C5 counterexample: at clock 1000, an access cookie that expired at 900
with no refresh token yields the 401 `SESSION_EXPIRED` response, and that
response performs no cookie clearing (`clearAuthCookies` is never invoked:
the effects are empty), contradicting the claim that the cookies are
cleared. -/
theorem C5_counterexample :
    authenticate ⟨"a", "r"⟩ [] 1000
        { cookieAccessToken := some (.signed ⟨⟨"u1"⟩, "a", 0, 900⟩) }
      = .failed 401 "SESSION_EXPIRED" {} ∧
    ({} : ResponseEffects).clearedCookies ≠ true := by
  constructor
  · decide
  · decide

/-- C5 (amended): whenever the gate fails with `SESSION_EXPIRED`, the
response carries no cookie mutation at all — in particular the cookies are
not cleared (the source's `clearAuthCookies` is only called by the logout
endpoint, never by `authenticate`). -/
theorem C5_session_expired_no_cookie_clear (cfg : JwtConfig)
    (users : List String) (now : Nat) (req : Request) (eff : ResponseEffects)
    (h : authenticate cfg users now req = .failed 401 "SESSION_EXPIRED" eff) :
    eff = {} ∧ eff.clearedCookies = false := by
  have heff : eff = {} := by
    rcases hx : extractAccessToken req with _ | blob
    · simp [authenticate, hx] at h
    · rcases hv : verifyAccessToken cfg now blob with e | c
      · cases e
        · rcases hAR : attemptTokenRefresh cfg users now req {} with ⟨r, eff1⟩
          have he1 : (attemptTokenRefresh cfg users now req {}).2 = eff1 := by
            rw [hAR]
          cases r with
          | ok uid a rt =>
            simp [authenticate, hx, hv, hAR] at h
          | failed =>
            simp [authenticate, hx, hv, hAR] at h
            have h2 : eff1 = {} := by
              rw [← he1]
              exact attemptTokenRefresh_failed_eff cfg users now req {}
                (by rw [hAR])
            rw [← h, h2]
        · simp [authenticate, hx, hv] at h
      · simp [authenticate, hx, hv] at h
  exact ⟨heff, by rw [heff]⟩

/-- Witness for C5 (amended) at the counterexample's concrete request. -/
theorem C5_session_expired_no_cookie_clear_witness :
    ({} : ResponseEffects) = {} ∧
    ({} : ResponseEffects).clearedCookies = false :=
  C5_session_expired_no_cookie_clear ⟨"a", "r"⟩ [] 1000
    { cookieAccessToken := some (.signed ⟨⟨"u1"⟩, "a", 0, 900⟩) } {}
    (by decide)

/-- C8: cache-store failure policy — with the backend unavailable, `set` and
`del` return false, `get` returns null, `existsKey` returns false (none of
them raise: their return types are plain values), while `increment` alone
rethrows the backend error; and `get` on a non-existent key returns null
without error. -/
theorem C8_cache_failure_policy (s : RedisState) (k : String) (v : Value)
    (ttl : Option Nat) :
    (s.up = false →
      (RedisService.set s k v ttl).1 = false ∧
      RedisService.get s k = none ∧
      (RedisService.del s k).1 = false ∧
      RedisService.existsKey s k = false ∧
      RedisService.increment s k ttl = .error ()) ∧
    (storeFind s.store k = none → RedisService.get s k = none) := by
  constructor
  · intro h
    refine ⟨?_, ?_, ?_, ?_, ?_⟩ <;>
      simp [RedisService.set, RedisService.get, RedisService.del,
        RedisService.existsKey, RedisService.increment, clientSet, clientGet,
        clientDel, clientExists, clientIncr, h]
  · intro h
    by_cases hup : s.up
    · simp [RedisService.get, clientGet, hup, h]
    · simp [RedisService.get, clientGet, hup]

/-- Witness for C8: a downed backend over an empty keyspace, key `k`. -/
theorem C8_cache_failure_policy_witness :
    ((RedisService.set ⟨false, []⟩ "k" (.num 0) none).1 = false ∧
     RedisService.get ⟨false, []⟩ "k" = none ∧
     (RedisService.del ⟨false, []⟩ "k").1 = false ∧
     RedisService.existsKey ⟨false, []⟩ "k" = false ∧
     RedisService.increment ⟨false, []⟩ "k" none = .error ()) ∧
    RedisService.get ⟨false, []⟩ "k" = none :=
  ⟨(C8_cache_failure_policy ⟨false, []⟩ "k" (.num 0) none).1 rfl,
   (C8_cache_failure_policy ⟨false, []⟩ "k" (.num 0) none).2 rfl⟩

/-- C10: `updateSession` on an existing record writes back a record in which
each supplied field takes its new value, `lastActivity` is the current time
(even when not among the supplied fields), every other field is unchanged,
and every other key of the store is untouched; on an absent record the
store is returned unchanged. -/
theorem C10_updateSession_merge_frame (s : RedisState) (sessionId : String)
    (u : SessionUpdate) (now : Nat) :
    (∀ d, RedisService.get s (SessionService.getSessionKey sessionId)
        = some (.sess d) →
      RedisService.get (SessionService.updateSession s sessionId u now)
          (SessionService.getSessionKey sessionId)
        = some (.sess
            { userId := u.userId.getD d.userId,
              email := u.email.getD d.email,
              role := u.role.getD d.role,
              loginTime := u.loginTime.getD d.loginTime,
              lastActivity := now,
              ipAddress := u.ipAddress.getD d.ipAddress,
              userAgent := u.userAgent.getD d.userAgent }) ∧
      (∀ k, k ≠ SessionService.getSessionKey sessionId →
        RedisService.get (SessionService.updateSession s sessionId u now) k
          = RedisService.get s k)) ∧
    (RedisService.get s (SessionService.getSessionKey sessionId) = none →
      SessionService.updateSession s sessionId u now = s) := by
  constructor
  · intro d hd
    have hup : s.up = true := RedisService.get_some_up hd
    constructor
    · simp only [SessionService.updateSession, hd]
      rw [RedisService.get_set_same _ _ _ _ hup]
      simp [mergeUpdates]
    · intro k hk
      simp only [SessionService.updateSession, hd]
      exact RedisService.get_set_other s _ _ hk
  · intro hd
    simp only [SessionService.updateSession, hd]

/-- Witness for C10: a one-record store; the update supplies a new role and
an explicit stale `lastActivity`, which is still overridden with the clock;
the other user's key is untouched; and on a store without the record the
update is a no-op. -/
theorem C10_updateSession_merge_frame_witness :
    RedisService.get
        (SessionService.updateSession
          ⟨true, [("session:s1",
                   (.sess { userId := "u1", email := "e", role := "user",
                            loginTime := 5, lastActivity := 5 },
                   some 604800)),
                  ("user_sessions:u1", (.ids ["s1"], some 604800))]⟩
          "s1" { role := some "admin", lastActivity := some 77 } 42)
        (SessionService.getSessionKey "s1")
      = some (.sess { userId := "u1", email := "e", role := "admin",
                      loginTime := 5, lastActivity := 42 }) ∧
    RedisService.get
        (SessionService.updateSession
          ⟨true, [("session:s1",
                   (.sess { userId := "u1", email := "e", role := "user",
                            loginTime := 5, lastActivity := 5 },
                   some 604800)),
                  ("user_sessions:u1", (.ids ["s1"], some 604800))]⟩
          "s1" { role := some "admin", lastActivity := some 77 } 42)
        "user_sessions:u1"
      = RedisService.get
          ⟨true, [("session:s1",
                   (.sess { userId := "u1", email := "e", role := "user",
                            loginTime := 5, lastActivity := 5 },
                   some 604800)),
                  ("user_sessions:u1", (.ids ["s1"], some 604800))]⟩
          "user_sessions:u1" ∧
    SessionService.updateSession ⟨true, []⟩ "s1"
        { role := some "admin" } 42
      = ⟨true, []⟩ := by
  have h := C10_updateSession_merge_frame
    ⟨true, [("session:s1",
             (.sess { userId := "u1", email := "e", role := "user",
                      loginTime := 5, lastActivity := 5 },
             some 604800)),
            ("user_sessions:u1", (.ids ["s1"], some 604800))]⟩
    "s1" { role := some "admin", lastActivity := some 77 } 42
  have h0 := C10_updateSession_merge_frame ⟨true, []⟩ "s1"
    { role := some "admin" } 42
  have hrec := h.1 { userId := "u1", email := "e", role := "user",
                     loginTime := 5, lastActivity := 5 } (by decide)
  exact ⟨hrec.1, hrec.2 "user_sessions:u1" (by decide), h0.2 (by decide)⟩

/-- C9: `deleteSession` on an existing record removes the record key from
the store and prunes the id from the owning user's session-id list; when
the pruned list is empty the list key itself is removed, so after deleting
a user's only session neither the record key nor the list key exists. -/
theorem C9_deleteSession_prunes (s : RedisState) (sessionId : String)
    (d : SessionData)
    (hrec : RedisService.get s (SessionService.getSessionKey sessionId)
      = some (.sess d)) :
    RedisService.get (SessionService.deleteSession s sessionId)
        (SessionService.getSessionKey sessionId) = none ∧
    (∀ l, RedisService.get s (SessionService.getUserSessionsKey d.userId)
        = some (.ids l) →
      sessionId ∉ l.filter (fun id => id != sessionId) ∧
      (l.filter (fun id => id != sessionId) ≠ [] →
        RedisService.get (SessionService.deleteSession s sessionId)
            (SessionService.getUserSessionsKey d.userId)
          = some (.ids (l.filter (fun id => id != sessionId)))) ∧
      (l.filter (fun id => id != sessionId) = [] →
        RedisService.get (SessionService.deleteSession s sessionId)
            (SessionService.getUserSessionsKey d.userId) = none)) := by
  have hup : s.up = true := RedisService.get_some_up hrec
  have hkey : SessionService.getUserSessionsKey d.userId ≠
      SessionService.getSessionKey sessionId :=
    (SessionService.sessionKey_ne_userSessionsKey sessionId d.userId).symm
  constructor
  · simp only [SessionService.deleteSession]
    exact RedisService.get_del_same _ _
  · intro l hl
    refine ⟨?_, ?_, ?_⟩
    · simp
    · intro hne
      have hlen : (l.filter (fun id => id != sessionId)).length > 0 :=
        List.length_pos.mpr hne
      simp only [SessionService.deleteSession, hrec, hl]
      rw [if_pos hlen]
      rw [RedisService.get_del_other _ hkey]
      exact RedisService.get_set_same _ _ _ _ hup
    · intro he
      simp only [SessionService.deleteSession, hrec, hl]
      rw [he]
      rw [if_neg (show ¬ (([] : List String).length > 0) by simp)]
      rw [RedisService.get_del_other _ hkey]
      exact RedisService.get_del_same _ _

/-- Witness for C9: a store holding the single session `s1` of user `u1`
with list `["s1"]`; after deletion neither key resolves. -/
theorem C9_deleteSession_prunes_witness :
    RedisService.get
        (SessionService.deleteSession
          ⟨true, [("session:s1",
                   (.sess { userId := "u1", email := "e", role := "user",
                            loginTime := 5, lastActivity := 5 },
                   some 604800)),
                  ("user_sessions:u1", (.ids ["s1"], some 604800))]⟩
          "s1")
        (SessionService.getSessionKey "s1") = none ∧
    RedisService.get
        (SessionService.deleteSession
          ⟨true, [("session:s1",
                   (.sess { userId := "u1", email := "e", role := "user",
                            loginTime := 5, lastActivity := 5 },
                   some 604800)),
                  ("user_sessions:u1", (.ids ["s1"], some 604800))]⟩
          "s1")
        (SessionService.getUserSessionsKey "u1") = none := by
  have h := C9_deleteSession_prunes
    ⟨true, [("session:s1",
             (.sess { userId := "u1", email := "e", role := "user",
                      loginTime := 5, lastActivity := 5 },
             some 604800)),
            ("user_sessions:u1", (.ids ["s1"], some 604800))]⟩
    "s1" { userId := "u1", email := "e", role := "user",
           loginTime := 5, lastActivity := 5 } (by decide)
  exact ⟨h.1, (h.2 ["s1"] (by decide)).2.2 (by decide)⟩

/-- The session input used by both `createSession` calls in the C1 exhibit. -/
def c1Input : SessionInput :=
  { userId := "u1", email := "a@b.com", role := "user" }

/-- The store after two `createSession` calls (`s1` at time 100, `s2` at
time 200) for the same user `u1`, starting from an empty available store. -/
def c1AfterTwo : RedisState :=
  (SessionService.createSession
    (SessionService.createSession ⟨true, []⟩ "s1" 100 c1Input).2
    "s2" 200 c1Input).2

/-- C1 (code-bug exhibit): after two `createSession` calls for `u1`, the
user's session-id list holds only `["s2"]` (the second call overwrote the
list instead of appending, despite the source's own "Add session to user's
session list (for multi-device support)" comment), `getUserSessions`
returns 1 record instead of the claimed 2, and after `logoutAllDevices` the
first session's record is still present in the store instead of gone. -/
theorem C1_createSession_overwrites_list :
    RedisService.get c1AfterTwo (SessionService.getUserSessionsKey "u1")
      = some (.ids ["s2"]) ∧
    (SessionService.getUserSessions c1AfterTwo "u1" 300).1.length = 1 ∧
    RedisService.get (SessionService.logoutAllDevices c1AfterTwo "u1")
        (SessionService.getSessionKey "s1")
      = some (.sess { userId := "u1", email := "a@b.com", role := "user",
                      loginTime := 100, lastActivity := 100 }) := by
  decide
